import Mathlib

/-!
Verification of the input state buffering subsystem of the `tetra` game
framework: the gamepad device registry and query façade
(`src/input/gamepad.rs`), and the browser backend's event queue and key
translation table (`src/platform/web.rs`).

Modelling conventions:
* `HashSet<GamepadButton>` is modelled as `Finset GamepadButton` (an
  unordered, duplicate-free set, matching the source's set semantics and the
  spec's "iteration order is unspecified, compare as sets").
* `HashMap<GamepadAxis, f32>` is modelled as an association list
  `List (GamepadAxis × Float)` queried with `List.lookup`; the code never
  does arithmetic on axis values, it only stores and returns them.
* `Vec<Option<GamepadState>>` (the registry, `ctx.input.pads`) is modelled
  as `List (Option GamepadState)`.
* Rust `i32` platform ids become `Int`, `u32` durations become `Nat`,
  `f32` becomes `Float` (values are only passed through, never computed on).
* A Rust operation that can panic is modelled with an `Option` result,
  `none` standing for the panic.
* The vibration setters only forward to the platform layer; they are
  modelled as returning the platform call they make (`none` = no call).
-/

set_option maxRecDepth 16384
set_option maxHeartbeats 3200000

namespace Tetra

/-- A button on a gamepad (`GamepadButton` in `src/input/gamepad.rs`). -/
inductive GamepadButton
  | A
  | B
  | X
  | Y
  | Up
  | Down
  | Left
  | Right
  | LeftShoulder
  | LeftTrigger
  | LeftStick
  | RightShoulder
  | RightTrigger
  | RightStick
  | Start
  | Back
  | Guide
deriving DecidableEq, Repr

/-- An axis of movement on a gamepad (`GamepadAxis` in `src/input/gamepad.rs`). -/
inductive GamepadAxis
  | LeftStickX
  | LeftStickY
  | LeftTrigger
  | RightStickX
  | RightStickY
  | RightTrigger
deriving DecidableEq, Repr

/-- A control stick on a gamepad (`GamepadStick` in `src/input/gamepad.rs`). -/
inductive GamepadStick
  | LeftStick
  | RightStick
deriving DecidableEq, Repr

/-- Two-component float vector (`Vec2<f32>` from `src/math`). -/
structure Vec2 where
  x : Float
  y : Float

/-- Constructor `Vec2::new(x, y)`. -/
def Vec2.new (x y : Float) : Vec2 := ⟨x, y⟩

/-- Per-device state (`GamepadState` in `src/input/gamepad.rs`). -/
structure GamepadState where
  platform_id : Int
  current_button_state : Finset GamepadButton
  previous_button_state : Finset GamepadButton
  current_axis_state : List (GamepadAxis × Float)

/-- Embedding of `GamepadState::new`: a fresh device state with empty button sets and an
empty axis map. -/
def GamepadState.new (platform_id : Int) : GamepadState :=
  { platform_id := platform_id
    current_button_state := ∅
    previous_button_state := ∅
    current_axis_state := [] }

/-- The device registry `ctx.input.pads : Vec<Option<GamepadState>>`. -/
abbrev Pads := List (Option GamepadState)

/-- Embedding of `get_gamepad`: the single chokepoint every query routes through.
`pads.get(i)` is the non-panicking lookup, so an out-of-range index and an
empty slot both yield `none`. -/
def get_gamepad (pads : Pads) (gamepad_index : Nat) : Option GamepadState :=
  match pads[gamepad_index]? with
  | some (some pad) => some pad
  | _ => none

/-- Embedding of `is_gamepad_button_down`: membership in the current button set;
`false` when disconnected. -/
def is_gamepad_button_down (pads : Pads) (gamepad_index : Nat)
    (button : GamepadButton) : Bool :=
  match get_gamepad pads gamepad_index with
  | some pad => decide (button ∈ pad.current_button_state)
  | none => false

/-- Embedding of `is_gamepad_button_up`: negated membership in the current button set;
`true` when disconnected. -/
def is_gamepad_button_up (pads : Pads) (gamepad_index : Nat)
    (button : GamepadButton) : Bool :=
  match get_gamepad pads gamepad_index with
  | some pad => !decide (button ∈ pad.current_button_state)
  | none => true

/-- Embedding of `is_gamepad_button_pressed`: not in previous and in current;
`false` when disconnected. -/
def is_gamepad_button_pressed (pads : Pads) (gamepad_index : Nat)
    (button : GamepadButton) : Bool :=
  match get_gamepad pads gamepad_index with
  | some pad =>
      !decide (button ∈ pad.previous_button_state) &&
        decide (button ∈ pad.current_button_state)
  | none => false

/-- Embedding of `is_gamepad_button_released`: in previous and not in current;
`false` when disconnected. -/
def is_gamepad_button_released (pads : Pads) (gamepad_index : Nat)
    (button : GamepadButton) : Bool :=
  match get_gamepad pads gamepad_index with
  | some pad =>
      decide (button ∈ pad.previous_button_state) &&
        !decide (button ∈ pad.current_button_state)
  | none => false

/-- Embedding of `get_gamepad_buttons_down`, as the set of buttons the iterator yields:
the current button set, or empty when disconnected. -/
def get_gamepad_buttons_down (pads : Pads) (gamepad_index : Nat) :
    Finset GamepadButton :=
  match get_gamepad pads gamepad_index with
  | some pad => pad.current_button_state
  | none => ∅

/-- Embedding of `get_gamepad_buttons_pressed`, as the set the iterator yields:
`current.difference(previous)`, or empty when disconnected. -/
def get_gamepad_buttons_pressed (pads : Pads) (gamepad_index : Nat) :
    Finset GamepadButton :=
  match get_gamepad pads gamepad_index with
  | some pad => pad.current_button_state \ pad.previous_button_state
  | none => ∅

/-- Embedding of `get_gamepad_buttons_released`, as the set the iterator yields:
`previous.difference(current)`, or empty when disconnected. -/
def get_gamepad_buttons_released (pads : Pads) (gamepad_index : Nat) :
    Finset GamepadButton :=
  match get_gamepad pads gamepad_index with
  | some pad => pad.previous_button_state \ pad.current_button_state
  | none => ∅

/-- Embedding of `get_gamepad_axis_position`: the stored axis value, `0.0` when the axis
is absent or the device is disconnected. -/
def get_gamepad_axis_position (pads : Pads) (gamepad_index : Nat)
    (axis : GamepadAxis) : Float :=
  match get_gamepad pads gamepad_index with
  | some pad =>
      match pad.current_axis_state.lookup axis with
      | some value => value
      | none => 0.0
  | none => 0.0

/-- Embedding of `get_gamepad_stick_position`: resolves the stick to its two constituent
axes and pairs their positions. -/
def get_gamepad_stick_position (pads : Pads) (gamepad_index : Nat)
    (stick : GamepadStick) : Vec2 :=
  let axes : GamepadAxis × GamepadAxis :=
    match stick with
    | GamepadStick.LeftStick => (GamepadAxis.LeftStickX, GamepadAxis.LeftStickY)
    | GamepadStick.RightStick => (GamepadAxis.RightStickX, GamepadAxis.RightStickY)
  Vec2.new
    (get_gamepad_axis_position pads gamepad_index axes.1)
    (get_gamepad_axis_position pads gamepad_index axes.2)

/-- Embedding of `is_gamepad_vibration_supported`: forwards the platform id to the
platform layer (abstracted as `platform_supported`); `false` when
disconnected. -/
def is_gamepad_vibration_supported (pads : Pads) (gamepad_index : Nat)
    (platform_supported : Int → Bool) : Bool :=
  match get_gamepad pads gamepad_index with
  | some pad => platform_supported pad.platform_id
  | none => false

/-- Embedding of `set_gamepad_vibration`: the platform call made, as
`(platform_id, strength)`; `none` when disconnected (silent no-op). -/
def set_gamepad_vibration (pads : Pads) (gamepad_index : Nat)
    (strength : Float) : Option (Int × Float) :=
  match (get_gamepad pads gamepad_index).map (fun g => g.platform_id) with
  | some platform_id => some (platform_id, strength)
  | none => none

/-- Embedding of `start_gamepad_vibration`: the platform call made, as
`(platform_id, strength, duration)`; `none` when disconnected. -/
def start_gamepad_vibration (pads : Pads) (gamepad_index : Nat)
    (strength : Float) (duration : Nat) : Option (Int × Float × Nat) :=
  match (get_gamepad pads gamepad_index).map (fun g => g.platform_id) with
  | some platform_id => some (platform_id, strength, duration)
  | none => none

/-- Embedding of `stop_gamepad_vibration`: the platform call made, as `platform_id`;
`none` when disconnected. -/
def stop_gamepad_vibration (pads : Pads) (gamepad_index : Nat) :
    Option Int :=
  match (get_gamepad pads gamepad_index).map (fun g => g.platform_id) with
  | some platform_id => some platform_id
  | none => none

/-- Embedding of `add_gamepad`: scan for the lowest empty slot and reuse it, otherwise
append a new slot; returns the updated registry and the assigned index.
Total (never fails). -/
def add_gamepad (pads : Pads) (platform_id : Int) : Pads × Nat :=
  match pads with
  | [] => ([some (GamepadState.new platform_id)], 0)
  | none :: rest => (some (GamepadState.new platform_id) :: rest, 0)
  | some pad :: rest =>
      let r := add_gamepad rest platform_id
      (some pad :: r.1, r.2 + 1)

/-- Embedding of `remove_gamepad`: `ctx.input.pads[gamepad_index] = None`. Rust `Vec`
index assignment bounds-checks, so an out-of-range index panics; the panic
is modelled as `none`. -/
def remove_gamepad (pads : Pads) (gamepad_index : Nat) : Option Pads :=
  if gamepad_index < pads.length then some (pads.set gamepad_index none)
  else none

theorem list_set_id_of_getElem? {α : Type} :
    ∀ (l : List α) (i : Nat) (a : α), l[i]? = some a → l.set i a = l
  | [], i, a, h => by simp at h
  | x :: xs, 0, a, h => by
      simp at h
      simp [h]
  | x :: xs, i + 1, a, h => by
      simp only [List.getElem?_cons_succ] at h
      simp [list_set_id_of_getElem? xs i a h]

theorem add_gamepad_get_self (pads : Pads) (pid : Int) :
    (add_gamepad pads pid).1[(add_gamepad pads pid).2]? =
      some (some (GamepadState.new pid)) := by
  induction pads with
  | nil => rfl
  | cons hd tl ih =>
    cases hd with
    | none => simp [add_gamepad]
    | some p => simpa [add_gamepad] using ih

theorem add_gamepad_get_other (pads : Pads) (pid : Int) :
    ∀ j, j ≠ (add_gamepad pads pid).2 →
      (add_gamepad pads pid).1[j]? = pads[j]? := by
  induction pads with
  | nil =>
    intro j hj
    cases j with
    | zero => exact absurd rfl hj
    | succ k => simp [add_gamepad]
  | cons hd tl ih =>
    cases hd with
    | none =>
      intro j hj
      cases j with
      | zero => exact absurd rfl hj
      | succ k => simp [add_gamepad]
    | some p =>
      intro j hj
      cases j with
      | zero => simp [add_gamepad]
      | succ k =>
        have hk : k ≠ (add_gamepad tl pid).2 := by
          intro h
          exact hj (by simp [add_gamepad, h])
        simp [add_gamepad, ih k hk]

theorem add_gamepad_lowest (pads : Pads) (pid : Int) :
    ∀ j, j < (add_gamepad pads pid).2 → ∃ p, pads[j]? = some (some p) := by
  induction pads with
  | nil => intro j hj; simp [add_gamepad] at hj
  | cons hd tl ih =>
    cases hd with
    | none => intro j hj; simp [add_gamepad] at hj
    | some p =>
      intro j hj
      cases j with
      | zero => exact ⟨p, by simp⟩
      | succ k =>
        have hk : k < (add_gamepad tl pid).2 := by
          simp only [add_gamepad] at hj
          omega
        obtain ⟨q, hq⟩ := ih k hk
        exact ⟨q, by simpa using hq⟩

theorem add_gamepad_reuse_or_append (pads : Pads) (pid : Int) :
    (add_gamepad pads pid).2 ≤ pads.length ∧
    (pads[(add_gamepad pads pid).2]? = some none ∨
      (add_gamepad pads pid).2 = pads.length) := by
  induction pads with
  | nil => simp [add_gamepad]
  | cons hd tl ih =>
    cases hd with
    | none => simp [add_gamepad]
    | some p =>
      obtain ⟨h1, h2⟩ := ih
      constructor
      · simp only [add_gamepad, List.length_cons]
        omega
      · cases h2 with
        | inl h => exact Or.inl (by simpa [add_gamepad] using h)
        | inr h => exact Or.inr (by simp [add_gamepad, h])

/-- C3: `add_gamepad` never fails; it returns the lowest-numbered empty slot
index if one exists, otherwise the index of a newly appended slot; all other
slots are unchanged; and the slot at the returned index holds a fresh
`GamepadState` with the given platform id and empty current/previous button
sets and axis map, so no stale state leaks into a reused slot. -/
theorem add_gamepad_spec (pads : Pads) (pid : Int) :
    (add_gamepad pads pid).1[(add_gamepad pads pid).2]? =
      some (some (GamepadState.new pid)) ∧
    (∀ j, j ≠ (add_gamepad pads pid).2 →
      (add_gamepad pads pid).1[j]? = pads[j]?) ∧
    (∀ j, j < (add_gamepad pads pid).2 → ∃ p, pads[j]? = some (some p)) ∧
    (add_gamepad pads pid).2 ≤ pads.length ∧
    (pads[(add_gamepad pads pid).2]? = some none ∨
      (add_gamepad pads pid).2 = pads.length) ∧
    (GamepadState.new pid).platform_id = pid ∧
    (GamepadState.new pid).current_button_state = ∅ ∧
    (GamepadState.new pid).previous_button_state = ∅ ∧
    (GamepadState.new pid).current_axis_state = [] :=
  ⟨add_gamepad_get_self pads pid, add_gamepad_get_other pads pid,
    add_gamepad_lowest pads pid, (add_gamepad_reuse_or_append pads pid).1,
    (add_gamepad_reuse_or_append pads pid).2, rfl, rfl, rfl, rfl⟩

/-- C3 witness: on the registry `[none]` with platform id `5`, the freed
slot `0` is reused with a fresh state, and slot `1` is untouched. -/
theorem add_gamepad_spec_witness :
    (add_gamepad ([none] : Pads) 5).1[(add_gamepad ([none] : Pads) 5).2]? =
      some (some (GamepadState.new 5)) ∧
    (add_gamepad ([none] : Pads) 5).1[1]? = ([none] : Pads)[1]? := by
  have h := add_gamepad_spec ([none] : Pads) 5
  exact ⟨h.1, h.2.1 1 (by decide)⟩

/-- C2 counterexample: the claim says an out-of-range index passed to
`remove_gamepad` does not crash, but `ctx.input.pads[gamepad_index] = None`
bounds-checks and panics: on the empty registry at index 0 the call panics
(modelled as `none`). -/
theorem remove_gamepad_out_of_range_panics :
    remove_gamepad ([] : Pads) 0 = none := rfl

/-- C2 amended: `remove_gamepad` on an in-range slot that is already empty
is tolerated as a no-op (the registry is unchanged), but an out-of-range
index panics (Rust `Vec` index assignment bounds-checks), modelled as
`none`. -/
theorem remove_gamepad_amended (pads : Pads) (i : Nat) :
    (pads[i]? = some none → remove_gamepad pads i = some pads) ∧
    (pads.length ≤ i → remove_gamepad pads i = none) := by
  constructor
  · intro h
    have hlt : i < pads.length := by
      rcases List.getElem?_eq_some.mp h with ⟨hl, _⟩
      exact hl
    simp [remove_gamepad, hlt, list_set_id_of_getElem? pads i none h]
  · intro h
    simp [remove_gamepad, Nat.not_lt.mpr h]

/-- C2 witness: removing index 0 from the registry `[none]` (an in-range,
already-empty slot) succeeds and leaves the registry unchanged. -/
theorem remove_gamepad_amended_witness :
    remove_gamepad ([none] : Pads) 0 = some ([none] : Pads) :=
  (remove_gamepad_amended ([none] : Pads) 0).1 rfl

/-- C1: for an index that does not correspond to a connected device (out of
range, or an in-range empty slot), every public query returns its
documented neutral value: `get_gamepad` is `none`, down is `false`, up is
`true`, pressed and released are `false`, the axis position is `0.0`, the
stick position is `(0.0, 0.0)`, the three button iterators are empty, the
vibration-supported query is `false`, and the three vibration setters make
no platform call. -/
theorem neutral_on_disconnected (pads : Pads) (i : Nat) (b : GamepadButton)
    (ax : GamepadAxis) (st : GamepadStick) (psup : Int → Bool)
    (strength : Float) (duration : Nat)
    (h : pads.length ≤ i ∨ pads[i]? = some none) :
    get_gamepad pads i = none ∧
    is_gamepad_button_down pads i b = false ∧
    is_gamepad_button_up pads i b = true ∧
    is_gamepad_button_pressed pads i b = false ∧
    is_gamepad_button_released pads i b = false ∧
    get_gamepad_axis_position pads i ax = 0.0 ∧
    get_gamepad_stick_position pads i st = Vec2.new 0.0 0.0 ∧
    get_gamepad_buttons_down pads i = ∅ ∧
    get_gamepad_buttons_pressed pads i = ∅ ∧
    get_gamepad_buttons_released pads i = ∅ ∧
    is_gamepad_vibration_supported pads i psup = false ∧
    set_gamepad_vibration pads i strength = none ∧
    start_gamepad_vibration pads i strength duration = none ∧
    stop_gamepad_vibration pads i = none := by
  have hg : get_gamepad pads i = none := by
    cases h with
    | inl h => simp [get_gamepad, List.getElem?_eq_none h]
    | inr h => simp [get_gamepad, h]
  refine ⟨hg, ?_, ?_, ?_, ?_, ?_, ?_, ?_, ?_, ?_, ?_, ?_, ?_, ?_⟩
  · simp [is_gamepad_button_down, hg]
  · simp [is_gamepad_button_up, hg]
  · simp [is_gamepad_button_pressed, hg]
  · simp [is_gamepad_button_released, hg]
  · simp [get_gamepad_axis_position, hg]
  · cases st <;> simp [get_gamepad_stick_position, get_gamepad_axis_position, hg]
  · simp [get_gamepad_buttons_down, hg]
  · simp [get_gamepad_buttons_pressed, hg]
  · simp [get_gamepad_buttons_released, hg]
  · simp [is_gamepad_vibration_supported, hg]
  · simp [set_gamepad_vibration, hg]
  · simp [start_gamepad_vibration, hg]
  · simp [stop_gamepad_vibration, hg]

/-- C1 witness: on the empty registry, index 0 is out of range and every
query returns its neutral value. -/
theorem neutral_on_disconnected_witness :
    get_gamepad ([] : Pads) 0 = none ∧
    is_gamepad_button_down ([] : Pads) 0 GamepadButton.A = false ∧
    is_gamepad_button_up ([] : Pads) 0 GamepadButton.A = true ∧
    is_gamepad_button_pressed ([] : Pads) 0 GamepadButton.A = false ∧
    is_gamepad_button_released ([] : Pads) 0 GamepadButton.A = false ∧
    get_gamepad_axis_position ([] : Pads) 0 GamepadAxis.LeftStickX = 0.0 ∧
    get_gamepad_stick_position ([] : Pads) 0 GamepadStick.LeftStick =
      Vec2.new 0.0 0.0 ∧
    get_gamepad_buttons_down ([] : Pads) 0 = ∅ ∧
    get_gamepad_buttons_pressed ([] : Pads) 0 = ∅ ∧
    get_gamepad_buttons_released ([] : Pads) 0 = ∅ ∧
    is_gamepad_vibration_supported ([] : Pads) 0 (fun _ => true) = false ∧
    set_gamepad_vibration ([] : Pads) 0 1.0 = none ∧
    start_gamepad_vibration ([] : Pads) 0 1.0 100 = none ∧
    stop_gamepad_vibration ([] : Pads) 0 = none :=
  neutral_on_disconnected [] 0 GamepadButton.A GamepadAxis.LeftStickX
    GamepadStick.LeftStick (fun _ => true) 1.0 100 (Or.inl (Nat.le_refl 0))

/-- C4: for every registry state, index and button, pressed holds exactly
when the button is in `current_button_state` and not in
`previous_button_state` of the connected device, released exactly the other
way round, and the two are never both true (also when disconnected, where
both are false). -/
theorem pressed_released_spec (pads : Pads) (i : Nat) (b : GamepadButton) :
    (∀ pad, get_gamepad pads i = some pad →
      (is_gamepad_button_pressed pads i b = true ↔
        b ∈ pad.current_button_state ∧ b ∉ pad.previous_button_state) ∧
      (is_gamepad_button_released pads i b = true ↔
        b ∈ pad.previous_button_state ∧ b ∉ pad.current_button_state)) ∧
    ¬(is_gamepad_button_pressed pads i b = true ∧
      is_gamepad_button_released pads i b = true) := by
  constructor
  · intro pad hpad
    constructor
    · simp [is_gamepad_button_pressed, hpad, and_comm]
    · simp [is_gamepad_button_released, hpad, and_comm]
  · rintro ⟨h1, h2⟩
    cases hg : get_gamepad pads i with
    | none => simp [is_gamepad_button_pressed, hg] at h1
    | some pad =>
      simp [is_gamepad_button_pressed, hg] at h1
      simp [is_gamepad_button_released, hg] at h2
      tauto

/-- C4 witness: on a registry whose slot 0 holds a fresh device (empty
button sets), button `A` is reported pressed exactly when it is in the empty
current set and not in the empty previous set (hence not pressed). -/
theorem pressed_released_spec_witness :
    is_gamepad_button_pressed [some (GamepadState.new 7)] 0
        GamepadButton.A = true ↔
      GamepadButton.A ∈ (GamepadState.new 7).current_button_state ∧
      GamepadButton.A ∉ (GamepadState.new 7).previous_button_state :=
  ((pressed_released_spec [some (GamepadState.new 7)] 0 GamepadButton.A).1
    (GamepadState.new 7) rfl).1

/-- C5: the set yielded by `get_gamepad_buttons_pressed` equals
`current_button_state \ previous_button_state` of the connected device and
the set yielded by `get_gamepad_buttons_released` equals
`previous_button_state \ current_button_state`; for a disconnected device
both are empty. -/
theorem buttons_pressed_released_sets (pads : Pads) (i : Nat) :
    (∀ pad, get_gamepad pads i = some pad →
      get_gamepad_buttons_pressed pads i =
        pad.current_button_state \ pad.previous_button_state ∧
      get_gamepad_buttons_released pads i =
        pad.previous_button_state \ pad.current_button_state) ∧
    (get_gamepad pads i = none →
      get_gamepad_buttons_pressed pads i = ∅ ∧
      get_gamepad_buttons_released pads i = ∅) := by
  constructor
  · intro pad hpad
    exact ⟨by simp [get_gamepad_buttons_pressed, hpad],
      by simp [get_gamepad_buttons_released, hpad]⟩
  · intro h
    exact ⟨by simp [get_gamepad_buttons_pressed, h],
      by simp [get_gamepad_buttons_released, h]⟩

/-- C5 witness: on the empty registry the two iterators yield the empty
set. -/
theorem buttons_pressed_released_sets_witness :
    get_gamepad_buttons_pressed ([] : Pads) 0 = ∅ ∧
    get_gamepad_buttons_released ([] : Pads) 0 = ∅ :=
  (buttons_pressed_released_sets ([] : Pads) 0).2 rfl

/-- C6: for every registry state, gamepad index (connected or not) and
button, `is_gamepad_button_down` is the boolean negation of
`is_gamepad_button_up`. -/
theorem is_gamepad_button_down_eq_not_up (pads : Pads) (i : Nat)
    (b : GamepadButton) :
    is_gamepad_button_down pads i b = !is_gamepad_button_up pads i b := by
  unfold is_gamepad_button_down is_gamepad_button_up
  cases get_gamepad pads i <;> simp

/-- C7: for every registry state and index, `get_gamepad_stick_position`
is exactly the pair of `get_gamepad_axis_position` on the stick's X and Y
axes — `LeftStick` resolving to `(LeftStickX, LeftStickY)` and `RightStick`
to `(RightStickX, RightStickY)` — with no clamping or normalization,
including the `0.0` fallbacks inherited from `get_gamepad_axis_position`. -/
theorem get_gamepad_stick_position_eq_axis_pair (pads : Pads) (i : Nat) :
    get_gamepad_stick_position pads i GamepadStick.LeftStick =
      Vec2.new (get_gamepad_axis_position pads i GamepadAxis.LeftStickX)
        (get_gamepad_axis_position pads i GamepadAxis.LeftStickY) ∧
    get_gamepad_stick_position pads i GamepadStick.RightStick =
      Vec2.new (get_gamepad_axis_position pads i GamepadAxis.RightStickX)
        (get_gamepad_axis_position pads i GamepadAxis.RightStickY) := by
  exact ⟨rfl, rfl⟩

/-- A keyboard key (`Key` in `src/input`), restricted to the variants the
browser translation table in `src/platform/web.rs` produces. -/
inductive Key
  | A | B | C | D | E | F | G | H | I | J | K | L | M
  | N | O | P | Q | R | S | T | U | V | W | X | Y | Z
  | Num0 | Num1 | Num2 | Num3 | Num4 | Num5 | Num6 | Num7 | Num8 | Num9
  | F1 | F2 | F3 | F4 | F5 | F6 | F7 | F8 | F9 | F10 | F11 | F12
  | F13 | F14 | F15 | F16 | F17 | F18 | F19 | F20 | F21 | F22 | F23 | F24
  | NumLock
  | NumPad0 | NumPad1 | NumPad2 | NumPad3 | NumPad4
  | NumPad5 | NumPad6 | NumPad7 | NumPad8 | NumPad9
  | NumPadPlus | NumPadMinus | NumPadMultiply | NumPadDivide | NumPadEnter
  | LeftCtrl | LeftShift | LeftAlt
  | RightCtrl | RightShift | RightAlt
  | Up | Down | Left | Right
  | Ampersand | Asterisk | At | Backquote | Backslash | Backspace
  | CapsLock | Caret | Colon | Comma | Delete | Dollar | DoubleQuote
  | End | Enter | Equals | Escape | Exclaim | GreaterThan | Hash
  | Home | Insert | LeftBracket | LeftParen | LessThan | Minus
  | PageDown | PageUp | Pause | Percent | Period | Plus | PrintScreen
  | Question | Quote | RightBracket | RightParen | ScrollLock
  | Semicolon | Slash | Space | Tab | Underscore
deriving DecidableEq, Repr

/-- Constant `web_sys::KeyboardEvent::DOM_KEY_LOCATION_STANDARD`. -/
def DOM_KEY_LOCATION_STANDARD : Nat := 0

/-- Constant `web_sys::KeyboardEvent::DOM_KEY_LOCATION_LEFT`. -/
def DOM_KEY_LOCATION_LEFT : Nat := 1

/-- Constant `web_sys::KeyboardEvent::DOM_KEY_LOCATION_RIGHT`. -/
def DOM_KEY_LOCATION_RIGHT : Nat := 2

/-- Constant `web_sys::KeyboardEvent::DOM_KEY_LOCATION_NUMPAD`. -/
def DOM_KEY_LOCATION_NUMPAD : Nat := 3

/-- One arm of the `match` in `into_key` (`src/platform/web.rs`): a guard
on the event's `key()` string and `location()` number, and the key the arm
translates to. -/
structure KeyArm where
  cond : String → Nat → Bool
  result : Key

/-- First-match semantics of the Rust `match` on `(key, location)`: return
the result of the first arm whose guard accepts the input; the source's
final `_ => None` arm is the base case. -/
def matchArms : List KeyArm → String → Nat → Option Key
  | [], _, _ => none
  | arm :: rest, key, location =>
      if arm.cond key location then some arm.result
      else matchArms rest key location

/-- The arms of `into_key` before the modifier block, in source order:
letters (either case, any location), the standard-location digits, the
function keys, `NumLock`, the numpad digits (note the shifted `NumPad`
results, exactly as in the source) and the numpad operator keys. -/
def intoKeyArmsPre : List KeyArm := [
  ⟨fun key _ => key == "a" || key == "A", Key.A⟩,
  ⟨fun key _ => key == "b" || key == "B", Key.B⟩,
  ⟨fun key _ => key == "c" || key == "C", Key.C⟩,
  ⟨fun key _ => key == "d" || key == "D", Key.D⟩,
  ⟨fun key _ => key == "e" || key == "E", Key.E⟩,
  ⟨fun key _ => key == "f" || key == "F", Key.F⟩,
  ⟨fun key _ => key == "g" || key == "G", Key.G⟩,
  ⟨fun key _ => key == "h" || key == "H", Key.H⟩,
  ⟨fun key _ => key == "i" || key == "I", Key.I⟩,
  ⟨fun key _ => key == "j" || key == "J", Key.J⟩,
  ⟨fun key _ => key == "k" || key == "K", Key.K⟩,
  ⟨fun key _ => key == "l" || key == "L", Key.L⟩,
  ⟨fun key _ => key == "m" || key == "M", Key.M⟩,
  ⟨fun key _ => key == "n" || key == "N", Key.N⟩,
  ⟨fun key _ => key == "o" || key == "O", Key.O⟩,
  ⟨fun key _ => key == "p" || key == "P", Key.P⟩,
  ⟨fun key _ => key == "q" || key == "Q", Key.Q⟩,
  ⟨fun key _ => key == "r" || key == "R", Key.R⟩,
  ⟨fun key _ => key == "s" || key == "S", Key.S⟩,
  ⟨fun key _ => key == "t" || key == "T", Key.T⟩,
  ⟨fun key _ => key == "u" || key == "U", Key.U⟩,
  ⟨fun key _ => key == "v" || key == "V", Key.V⟩,
  ⟨fun key _ => key == "w" || key == "W", Key.W⟩,
  ⟨fun key _ => key == "x" || key == "X", Key.X⟩,
  ⟨fun key _ => key == "y" || key == "Y", Key.Y⟩,
  ⟨fun key _ => key == "z" || key == "Z", Key.Z⟩,
  ⟨fun key location => key == "0" && location == DOM_KEY_LOCATION_STANDARD, Key.Num0⟩,
  ⟨fun key location => key == "1" && location == DOM_KEY_LOCATION_STANDARD, Key.Num1⟩,
  ⟨fun key location => key == "2" && location == DOM_KEY_LOCATION_STANDARD, Key.Num2⟩,
  ⟨fun key location => key == "3" && location == DOM_KEY_LOCATION_STANDARD, Key.Num3⟩,
  ⟨fun key location => key == "4" && location == DOM_KEY_LOCATION_STANDARD, Key.Num4⟩,
  ⟨fun key location => key == "5" && location == DOM_KEY_LOCATION_STANDARD, Key.Num5⟩,
  ⟨fun key location => key == "6" && location == DOM_KEY_LOCATION_STANDARD, Key.Num6⟩,
  ⟨fun key location => key == "7" && location == DOM_KEY_LOCATION_STANDARD, Key.Num7⟩,
  ⟨fun key location => key == "8" && location == DOM_KEY_LOCATION_STANDARD, Key.Num8⟩,
  ⟨fun key location => key == "9" && location == DOM_KEY_LOCATION_STANDARD, Key.Num9⟩,
  ⟨fun key _ => key == "F1", Key.F1⟩,
  ⟨fun key _ => key == "F2", Key.F2⟩,
  ⟨fun key _ => key == "F3", Key.F3⟩,
  ⟨fun key _ => key == "F4", Key.F4⟩,
  ⟨fun key _ => key == "F5", Key.F5⟩,
  ⟨fun key _ => key == "F6", Key.F6⟩,
  ⟨fun key _ => key == "F7", Key.F7⟩,
  ⟨fun key _ => key == "F8", Key.F8⟩,
  ⟨fun key _ => key == "F9", Key.F9⟩,
  ⟨fun key _ => key == "F10", Key.F10⟩,
  ⟨fun key _ => key == "F11", Key.F11⟩,
  ⟨fun key _ => key == "F12", Key.F12⟩,
  ⟨fun key _ => key == "F13", Key.F13⟩,
  ⟨fun key _ => key == "F14", Key.F14⟩,
  ⟨fun key _ => key == "F15", Key.F15⟩,
  ⟨fun key _ => key == "F16", Key.F16⟩,
  ⟨fun key _ => key == "F17", Key.F17⟩,
  ⟨fun key _ => key == "F18", Key.F18⟩,
  ⟨fun key _ => key == "F19", Key.F19⟩,
  ⟨fun key _ => key == "F20", Key.F20⟩,
  ⟨fun key _ => key == "F21", Key.F21⟩,
  ⟨fun key _ => key == "F22", Key.F22⟩,
  ⟨fun key _ => key == "F23", Key.F23⟩,
  ⟨fun key _ => key == "F24", Key.F24⟩,
  ⟨fun key _ => key == "NumLock", Key.NumLock⟩,
  ⟨fun key location => key == "0" && location == DOM_KEY_LOCATION_NUMPAD, Key.NumPad1⟩,
  ⟨fun key location => key == "1" && location == DOM_KEY_LOCATION_NUMPAD, Key.NumPad2⟩,
  ⟨fun key location => key == "2" && location == DOM_KEY_LOCATION_NUMPAD, Key.NumPad3⟩,
  ⟨fun key location => key == "3" && location == DOM_KEY_LOCATION_NUMPAD, Key.NumPad4⟩,
  ⟨fun key location => key == "4" && location == DOM_KEY_LOCATION_NUMPAD, Key.NumPad5⟩,
  ⟨fun key location => key == "5" && location == DOM_KEY_LOCATION_NUMPAD, Key.NumPad6⟩,
  ⟨fun key location => key == "6" && location == DOM_KEY_LOCATION_NUMPAD, Key.NumPad7⟩,
  ⟨fun key location => key == "7" && location == DOM_KEY_LOCATION_NUMPAD, Key.NumPad8⟩,
  ⟨fun key location => key == "8" && location == DOM_KEY_LOCATION_NUMPAD, Key.NumPad9⟩,
  ⟨fun key location => key == "9" && location == DOM_KEY_LOCATION_NUMPAD, Key.NumPad0⟩,
  ⟨fun key location => key == "+" && location == DOM_KEY_LOCATION_NUMPAD, Key.NumPadPlus⟩,
  ⟨fun key location => key == "-" && location == DOM_KEY_LOCATION_NUMPAD, Key.NumPadMinus⟩,
  ⟨fun key location => key == "*" && location == DOM_KEY_LOCATION_NUMPAD, Key.NumPadMultiply⟩,
  ⟨fun key location => key == "/" && location == DOM_KEY_LOCATION_NUMPAD, Key.NumPadDivide⟩,
  ⟨fun key location => key == "Enter" && location == DOM_KEY_LOCATION_NUMPAD, Key.NumPadEnter⟩
]

/-- The modifier arms of `into_key`, in source order: the left variants of
Control/Shift/Alt, followed by the right variants whose guards test the
same "left" location constant, exactly as in the source. -/
def intoKeyArmsMods : List KeyArm := [
  ⟨fun key location => key == "Control" && location == DOM_KEY_LOCATION_LEFT, Key.LeftCtrl⟩,
  ⟨fun key location => key == "Shift" && location == DOM_KEY_LOCATION_LEFT, Key.LeftShift⟩,
  ⟨fun key location => key == "Alt" && location == DOM_KEY_LOCATION_LEFT, Key.LeftAlt⟩,
  ⟨fun key location => key == "Control" && location == DOM_KEY_LOCATION_LEFT, Key.RightCtrl⟩,
  ⟨fun key location => key == "Shift" && location == DOM_KEY_LOCATION_LEFT, Key.RightShift⟩,
  ⟨fun key location => key == "Alt" && location == DOM_KEY_LOCATION_LEFT, Key.RightAlt⟩
]

/-- The arms of `into_key` after the modifier block, in source order: the
arrow keys and the punctuation/navigation keys. -/
def intoKeyArmsPost : List KeyArm := [
  ⟨fun key _ => key == "ArrowUp", Key.Up⟩,
  ⟨fun key _ => key == "ArrowDown", Key.Down⟩,
  ⟨fun key _ => key == "ArrowLeft", Key.Left⟩,
  ⟨fun key _ => key == "ArrowRight", Key.Right⟩,
  ⟨fun key _ => key == "&", Key.Ampersand⟩,
  ⟨fun key location => key == "*" && location == DOM_KEY_LOCATION_STANDARD, Key.Asterisk⟩,
  ⟨fun key _ => key == "@", Key.At⟩,
  ⟨fun key _ => key == "`", Key.Backquote⟩,
  ⟨fun key _ => key == "\\", Key.Backslash⟩,
  ⟨fun key _ => key == "Backspace", Key.Backspace⟩,
  ⟨fun key _ => key == "CapsLock", Key.CapsLock⟩,
  ⟨fun key _ => key == "^", Key.Caret⟩,
  ⟨fun key _ => key == ":", Key.Colon⟩,
  ⟨fun key _ => key == ",", Key.Comma⟩,
  ⟨fun key _ => key == "Delete", Key.Delete⟩,
  ⟨fun key _ => key == "$", Key.Dollar⟩,
  ⟨fun key _ => key == "\"", Key.DoubleQuote⟩,
  ⟨fun key _ => key == "End", Key.End⟩,
  ⟨fun key location => key == "Enter" && location == DOM_KEY_LOCATION_STANDARD, Key.Enter⟩,
  ⟨fun key _ => key == "=", Key.Equals⟩,
  ⟨fun key _ => key == "Escape", Key.Escape⟩,
  ⟨fun key _ => key == "!", Key.Exclaim⟩,
  ⟨fun key _ => key == ">", Key.GreaterThan⟩,
  ⟨fun key _ => key == "#", Key.Hash⟩,
  ⟨fun key _ => key == "Home", Key.Home⟩,
  ⟨fun key _ => key == "Insert", Key.Insert⟩,
  ⟨fun key _ => key == "\x7b", Key.LeftBracket⟩,
  ⟨fun key _ => key == "(", Key.LeftParen⟩,
  ⟨fun key _ => key == "<", Key.LessThan⟩,
  ⟨fun key location => key == "-" && location == DOM_KEY_LOCATION_STANDARD, Key.Minus⟩,
  ⟨fun key _ => key == "PageDown", Key.PageDown⟩,
  ⟨fun key _ => key == "PageUp", Key.PageUp⟩,
  ⟨fun key _ => key == "Pause", Key.Pause⟩,
  ⟨fun key _ => key == "%", Key.Percent⟩,
  ⟨fun key _ => key == ".", Key.Period⟩,
  ⟨fun key location => key == "+" && location == DOM_KEY_LOCATION_STANDARD, Key.Plus⟩,
  ⟨fun key _ => key == "PrintScreen", Key.PrintScreen⟩,
  ⟨fun key _ => key == "?", Key.Question⟩,
  ⟨fun key _ => key == "\x27", Key.Quote⟩,
  ⟨fun key _ => key == "\x7d", Key.RightBracket⟩,
  ⟨fun key _ => key == ")", Key.RightParen⟩,
  ⟨fun key _ => key == "ScrollLock", Key.ScrollLock⟩,
  ⟨fun key _ => key == ";", Key.Semicolon⟩,
  ⟨fun key location => key == "/" && location == DOM_KEY_LOCATION_STANDARD, Key.Slash⟩,
  ⟨fun key _ => key == " ", Key.Space⟩,
  ⟨fun key _ => key == "Tab", Key.Tab⟩,
  ⟨fun key _ => key == "_", Key.Underscore⟩
]

/-- The full arm table of `into_key`, one entry per source arm in source
order. -/
def intoKeyArms : List KeyArm :=
  intoKeyArmsPre ++ intoKeyArmsMods ++ intoKeyArmsPost

/-- Embedding of `into_key` from `src/platform/web.rs`: the browser key-translation
table. A `KeyboardEvent` is modelled by its `key()` string and `location()`
number. -/
def into_key (key : String) (location : Nat) : Option Key :=
  matchArms intoKeyArms key location

/-- The three right-hand modifier keys named by the spec's "copy-paste
defect" note. -/
def isRightModifier : Key → Bool
  | Key.RightCtrl => true
  | Key.RightShift => true
  | Key.RightAlt => true
  | _ => false

/-- The decimal digit `d` as the `key()` string a digit keyboard event
carries. -/
def digitString : Fin 10 → String
  | 0 => "0"
  | 1 => "1"
  | 2 => "2"
  | 3 => "3"
  | 4 => "4"
  | 5 => "5"
  | 6 => "6"
  | 7 => "7"
  | 8 => "8"
  | 9 => "9"

/-- The numpad key labelled with the digit `n`. -/
def numPadKey : Fin 10 → Key
  | 0 => Key.NumPad0
  | 1 => Key.NumPad1
  | 2 => Key.NumPad2
  | 3 => Key.NumPad3
  | 4 => Key.NumPad4
  | 5 => Key.NumPad5
  | 6 => Key.NumPad6
  | 7 => Key.NumPad7
  | 8 => Key.NumPad8
  | 9 => Key.NumPad9

/-- A queued input event (`Event` in `src/platform/web.rs`). -/
inductive Event
  | KeyDown (key : Key)
  | KeyUp (key : Key)
deriving DecidableEq, Repr

/-- Modelled from the spec: `input::set_key_down` (the keyboard state module
is not among the shown sources). Per §4.2 of the spec, the down mutator
inserts the key into the current key set (idempotent, set semantics). -/
def set_key_down (keyboard : Finset Key) (key : Key) : Finset Key :=
  insert key keyboard

/-- Modelled from the spec: `input::set_key_up` (the keyboard state module
is not among the shown sources). Per §4.2 of the spec, the up mutator
removes the key from the current key set. -/
def set_key_up (keyboard : Finset Key) (key : Key) : Finset Key :=
  keyboard.erase key

/-- One iteration of the `handle_events` drain loop: dispatch a popped event
to the matching keyboard mutator. -/
def applyEvent (keyboard : Finset Key) : Event → Finset Key
  | Event.KeyDown key => set_key_down keyboard key
  | Event.KeyUp key => set_key_up keyboard key

/-- Embedding of `handle_events` from `src/platform/web.rs`: pop events from the front
of the queue until it is empty, applying each one; the result is the final
queue contents (paired with the keyboard state) when the loop exits. That
this Lean definition is total is the termination of the drain loop. -/
def handle_events : List Event → Finset Key → List Event × Finset Key
  | [], keyboard => ([], keyboard)
  | e :: rest, keyboard => handle_events rest (applyEvent keyboard e)

/-- C8: a single call to `handle_events` drains the queue completely — the
queue is empty when it returns — and applies the events in FIFO arrival
order (`KeyDown k` as `set_key_down k`, `KeyUp k` as `set_key_up k`, i.e. a
left fold of `applyEvent` over the queue in push order); the drain loop
terminates on every queue. -/
theorem handle_events_drains (queue : List Event) (keyboard : Finset Key) :
    handle_events queue keyboard = ([], queue.foldl applyEvent keyboard) := by
  induction queue generalizing keyboard with
  | nil => rfl
  | cons e rest ih => simpa [handle_events] using ih (applyEvent keyboard e)

theorem matchArms_append_some (l1 l2 : List KeyArm) (key : String)
    (location : Nat) (r : Key) (h : matchArms l1 key location = some r) :
    matchArms (l1 ++ l2) key location = some r := by
  induction l1 with
  | nil => simp [matchArms] at h
  | cons a rest ih =>
    by_cases hc : a.cond key location = true
    · simp [matchArms, hc] at h ⊢
      exact h
    · simp only [matchArms, if_neg hc] at h
      simpa [matchArms, hc] using ih h

theorem matchArms_append_none (l1 l2 : List KeyArm) (key : String)
    (location : Nat) (h : matchArms l1 key location = none) :
    matchArms (l1 ++ l2) key location = matchArms l2 key location := by
  induction l1 with
  | nil => rfl
  | cons a rest ih =>
    by_cases hc : a.cond key location = true
    · simp [matchArms, hc] at h
    · simp only [matchArms, if_neg hc] at h
      simpa [matchArms, hc] using ih h

theorem matchArms_result_notRight (l : List KeyArm)
    (hl : l.all (fun arm => !isRightModifier arm.result) = true)
    (key : String) (location : Nat) (k : Key)
    (h : matchArms l key location = some k) :
    isRightModifier k = false := by
  induction l with
  | nil => simp [matchArms] at h
  | cons a rest ih =>
    simp only [List.all_cons, Bool.and_eq_true, Bool.not_eq_true'] at hl
    by_cases hc : a.cond key location = true
    · simp [matchArms, hc] at h
      subst h
      exact hl.1
    · simp only [matchArms, if_neg hc] at h
      exact ih (by simpa using hl.2) h

theorem matchArms_mods_notRight (key : String) (location : Nat) (k : Key)
    (h : matchArms intoKeyArmsMods key location = some k) :
    isRightModifier k = false := by
  simp only [intoKeyArmsMods, matchArms] at h
  repeat'
    first
      | (injection h with he
         subst he
         rfl)
      | contradiction
      | split at h

/-- C9: the left-modifier arms for Control/Shift/Alt all test the same
"left" location constant, so the right-variant arms are unreachable:
whatever key `into_key` returns, it is never `RightCtrl`, `RightShift` or
`RightAlt`. -/
theorem into_key_no_right_modifiers (key : String) (location : Nat)
    (k : Key) (h : into_key key location = some k) :
    isRightModifier k = false := by
  unfold into_key intoKeyArms at h
  rw [List.append_assoc] at h
  cases hA : matchArms intoKeyArmsPre key location with
  | some r =>
    rw [matchArms_append_some _ _ _ _ _ hA] at h
    injection h with he
    subst he
    exact matchArms_result_notRight intoKeyArmsPre (by decide) _ _ _ hA
  | none =>
    rw [matchArms_append_none _ _ _ _ hA] at h
    cases hB : matchArms intoKeyArmsMods key location with
    | some r =>
      rw [matchArms_append_some _ _ _ _ _ hB] at h
      injection h with he
      subst he
      exact matchArms_mods_notRight _ _ _ hB
    | none =>
      rw [matchArms_append_none _ _ _ _ hB] at h
      exact matchArms_result_notRight intoKeyArmsPost (by decide) _ _ _ h

/-- C9 witness: a left-location Control event translates to `LeftCtrl`,
which is not a right modifier. -/
theorem into_key_no_right_modifiers_witness :
    isRightModifier Key.LeftCtrl = false :=
  into_key_no_right_modifiers ("Control") DOM_KEY_LOCATION_LEFT Key.LeftCtrl rfl

/-- C10: the numpad digit mapping is shifted by one: the digit `d` at the
numpad location translates to the numpad key labelled `(d + 1) mod 10`
(so "0" maps to `NumPad1` and "9" maps to `NumPad0`), not to the
same-numbered numpad key. -/
theorem into_key_numpad_shifted (d : Fin 10) :
    into_key (digitString d) DOM_KEY_LOCATION_NUMPAD =
      some (numPadKey ⟨(d.val + 1) % 10, Nat.mod_lt _ (by omega)⟩) := by
  fin_cases d <;> rfl

end Tetra
